import Mathlib

/-!
Verification of the sbir-search aggregation / matching / dedup core.

Shallow embedding of `src/sbir_search/{matcher,sources,cli,state,sbir}.py`.
Python strings are Lean `String`s (ASCII case mapping), Python `int` is `Int`
or `Nat` as appropriate, Python sets of ids are duplicate-free lists, fallible
code returns `Except`.
-/

/-- ASCII lower-casing, modelling Python `str.lower()` on the ASCII texts the
matcher handles. -/
def pyLower (s : String) : String := String.mk (s.data.map Char.toLower)

/-- ASCII upper-casing, modelling Python `str.upper()`. -/
def pyUpper (s : String) : String := String.mk (s.data.map Char.toUpper)

/-- Python `str.isalnum()`: non-empty and every character alphanumeric. -/
def isAlnumStr (s : String) : Bool := !s.data.isEmpty && s.data.all Char.isAlphanum

/-- `needle.isPrefixOf hay`-based substring containment on character lists. -/
def containsSub (hay needle : List Char) : Bool :=
  match hay with
  | [] => needle.isEmpty
  | _ :: t => needle.isPrefixOf hay || containsSub t needle

/-- Substring containment on strings: semantics of `re.search` for a pattern
that is a literal character sequence. -/
def strContains (hay needle : String) : Bool := containsSub hay.data needle.data

/-- Semantics of `_compile_keyword(keyword).search(text)` (matcher.py 128-132).
The source builds the short-keyword pattern with `rf"\\b{escaped}\\b"`: inside
a *raw* string `\\b` is the two characters backslash and `b`, which the regex
engine reads as an escaped literal backslash followed by a literal `b` - not a
word-boundary assertion.  So the compiled pattern for a short alphanumeric
keyword matches exactly the texts containing backslash, `b`, the keyword,
backslash, `b` as literal characters.  Any other keyword compiles to its
`re.escape`d literal, which matches exactly the case-insensitive occurrences
of the keyword itself.  `re.IGNORECASE` is modelled by lower-casing both
sides (all involved characters are ASCII). -/
def patternMatches (keyword text : String) : Bool :=
  if isAlnumStr keyword && keyword.length ≤ 3 then
    strContains (pyLower text) ("\\b" ++ pyLower keyword ++ "\\b")
  else
    strContains (pyLower text) (pyLower keyword)

/-- The word-boundary semantics the spec describes for short alphanumeric
keywords: an occurrence of the keyword not flanked by alphanumeric
characters.  Stated only to witness the divergence from `patternMatches`. -/
def specWordMatch (keyword text : String) : Bool :=
  let k := (pyLower keyword).data
  let t := (pyLower text).data
  (List.range (t.length + 1)).any fun i =>
    k.isPrefixOf (t.drop i) &&
    (decide (i = 0) || !(t.getD (i - 1) ' ').isAlphanum) &&
    !((t.getD (i + k.length) ' ').isAlphanum && decide (i + k.length < t.length))

/-- Normalized Opportunity record (models.py).  The opaque `raw` payload is
omitted: it is unused by the matching/dedup core. -/
structure Opportunity where
  id : String
  source : Option String
  solicitation_title : String
  solicitation_number : Option String
  agency : Option String
  branch : Option String
  open_date : Option String
  close_date : Option String
  topic_title : Option String
  topic_number : Option String
  topic_description : Option String
  subtopic_title : Option String
  subtopic_description : Option String
  url : Option String
deriving DecidableEq

/-- A matched opportunity (models.py `Match`). -/
structure MatchRec where
  opportunity : Opportunity
  score : Nat
  matched_keywords : List String
  matched_text : String
deriving DecidableEq

/-- Per-opportunity diagnostic record (matcher.py `Evaluation`). -/
structure EvalRec where
  opportunity : Opportunity
  score : Nat
  matched_keywords : List String
  reason : Option String
deriving DecidableEq

/-- Result of `match_opportunities` (matcher.py `MatchResult`).  The Python
field `matches` is named `matchList` because `matches` is reserved in Lean. -/
structure MatchResult where
  matchList : List MatchRec
  skipped : Nat
  evaluations : List EvalRec
deriving DecidableEq

/-- A field name appearing in `config.match.match_fields`; `getattr` with a
`None` default lets an unrecognized name contribute nothing. -/
inductive MatchField
  | solicitation_title | solicitation_number | agency | branch
  | open_date | close_date | topic_title | topic_number | topic_description
  | subtopic_title | subtopic_description | url | idField | sourceField
  | unknown
deriving DecidableEq

/-- `getattr(opportunity, field_name, None)` for the fields above. -/
def getField (o : Opportunity) : MatchField → Option String
  | .solicitation_title => some o.solicitation_title
  | .solicitation_number => o.solicitation_number
  | .agency => o.agency
  | .branch => o.branch
  | .open_date => o.open_date
  | .close_date => o.close_date
  | .topic_title => o.topic_title
  | .topic_number => o.topic_number
  | .topic_description => o.topic_description
  | .subtopic_title => o.subtopic_title
  | .subtopic_description => o.subtopic_description
  | .url => o.url
  | .idField => some o.id
  | .sourceField => o.source
  | .unknown => none

/-- The match-relevant part of `MatchConfig` (config.py). -/
structure MatchCfg where
  keywords : List String
  exclude_keywords : List String
  min_score : Int
  agencies : List String
  always_include_sources : List String
  match_fields : List MatchField
deriving DecidableEq

/-- `build_text` (matcher.py 119-125): join the truthy configured fields with
newlines, then lower-case. -/
def buildText (o : Opportunity) (fields : List MatchField) : String :=
  pyLower (String.intercalate "\n"
    (((fields.filterMap (getField o)).filter (fun v => v ≠ ""))))

/-- `_first_excluded` (matcher.py 135-139): the first exclude keyword whose
compiled pattern matches the text. -/
def firstExcluded (text : String) (excludes : List String) : Option String :=
  excludes.find? (fun kw => patternMatches kw text)

/-- `source in always_include` check (matcher.py 28, 38-39). -/
def whitelisted (cfg : MatchCfg) (o : Opportunity) : Bool :=
  (cfg.always_include_sources.map pyLower).contains (pyLower (o.source.getD ""))

/-- The agency allow-list test (matcher.py 40-43): skip when a non-empty
allow-list is configured and the upper-cased agency is not in it. -/
def agencyFiltered (cfg : MatchCfg) (o : Opportunity) : Bool :=
  !cfg.agencies.isEmpty && !cfg.agencies.contains (pyUpper (o.agency.getD ""))

/-- The keyword list actually scored (matcher.py 81-85): lower-cased
configured keywords whose pattern matches the text; empty when the text is
empty. -/
def matchedKeywords (cfg : MatchCfg) (o : Opportunity) : List String :=
  let text := buildText o cfg.match_fields
  if text ≠ "" then
    (cfg.keywords.map pyLower).filter (fun kw => patternMatches kw text)
  else []

/-- One iteration of the `match_opportunities` loop body (matcher.py 37-114):
either a skip with its diagnostic record, or an accepted match with its
diagnostic record. -/
inductive StepOut
  | skip (e : EvalRec)
  | accept (m : MatchRec) (e : EvalRec)
deriving DecidableEq

/-- The per-opportunity decision sequence of `match_opportunities`
(matcher.py 37-114), translated branch by branch. -/
def evalOne (cfg : MatchCfg) (o : Opportunity) : StepOut :=
  let excludes := cfg.exclude_keywords.map pyLower
  if agencyFiltered cfg o then
    .skip ⟨o, 0, [], some "agency_filtered"⟩
  else
    let text := buildText o cfg.match_fields
    if text = "" && !whitelisted cfg o then
      .skip ⟨o, 0, [], some "no_text"⟩
    else
      match (if text ≠ "" then firstExcluded text excludes else none) with
      | some kw => .skip ⟨o, 0, [], some ("excluded_keyword:" ++ kw)⟩
      | none =>
        let mk := matchedKeywords cfg o
        let score := mk.length
        if (score : Int) < cfg.min_score && !whitelisted cfg o then
          .skip ⟨o, score, mk, some ("score<" ++ toString cfg.min_score)⟩
        else
          .accept ⟨o, score, mk, text⟩
            ⟨o, score, mk,
              if (score : Int) ≥ cfg.min_score then none else some "source_whitelist"⟩

/-- `match_opportunities` (matcher.py 25-116): run `evalOne` over the input
in order, accumulating matches, the skip count and one evaluation per
record. -/
def matchOpportunities (opportunities : List Opportunity) (cfg : MatchCfg) :
    MatchResult :=
  match opportunities with
  | [] => ⟨[], 0, []⟩
  | o :: rest =>
    let r := matchOpportunities rest cfg
    match evalOne cfg o with
    | .skip e => ⟨r.matchList, r.skipped + 1, e :: r.evaluations⟩
    | .accept m e => ⟨m :: r.matchList, r.skipped, e :: r.evaluations⟩

/-! ## Aggregation orchestrator (sources.py) -/

/-- The result of one adapter fetch when it is invoked: either a record list
or a raised exception's message.  `α` abstracts over the record type. -/
inductive Outcome (α : Type)
  | ok (records : List α)
  | err (msg : String)
deriving DecidableEq

/-- Whether an invoked fetch raised. -/
def Outcome.isErr {α : Type} : Outcome α → Bool
  | .ok _ => false
  | .err _ => true

/-- Records contributed by an invoked fetch (none when it raised). -/
def Outcome.records {α : Type} : Outcome α → List α
  | .ok rs => rs
  | .err _ => []

/-- `enabled` / `fallback_only` flags of a secondary adapter (config.py). -/
structure AdapterCfg where
  enabled : Bool
  fallback_only : Bool
deriving DecidableEq

/-- The part of `AppConfig` that `collect_opportunities` consults. -/
structure SourcesCfg where
  dod : AdapterCfg
  nsf : AdapterCfg
  nih : AdapterCfg
  rss : AdapterCfg
  sam : AdapterCfg
  fail_on_no_results : Bool
deriving DecidableEq

/-- The behaviour each adapter's fetch would exhibit if invoked in this run. -/
structure SourcesRun (α : Type) where
  sbir : Outcome α
  dod : Outcome α
  nsf : Outcome α
  nih : Outcome α
  rss : Outcome α
  sam : Outcome α
deriving DecidableEq

/-- `SourceReport` (sources.py 15-18). -/
structure SourceReport where
  name : String
  count : Nat
deriving DecidableEq

variable {α : Type}

/-- `sbir_failed` (sources.py 28-36): the primary always runs first. -/
def sbirFailed (r : SourcesRun α) : Bool := r.sbir.isErr

/-- Guard of the DoD block (sources.py 39). -/
def dodRuns (c : SourcesCfg) (r : SourcesRun α) : Bool :=
  c.dod.enabled && (sbirFailed r || !c.dod.fallback_only)

/-- `dod_failed` (sources.py 38, 45): set only when the block ran and raised. -/
def dodFailed (c : SourcesCfg) (r : SourcesRun α) : Bool :=
  dodRuns c r && r.dod.isErr

/-- Guard of the NSF block (sources.py 49). -/
def nsfRuns (c : SourcesCfg) (r : SourcesRun α) : Bool :=
  c.nsf.enabled && (sbirFailed r || !c.nsf.fallback_only)

/-- `nsf_failed` (sources.py 48, 55). -/
def nsfFailed (c : SourcesCfg) (r : SourcesRun α) : Bool :=
  nsfRuns c r && r.nsf.isErr

/-- Guard of the NIH block (sources.py 59). -/
def nihRuns (c : SourcesCfg) (r : SourcesRun α) : Bool :=
  c.nih.enabled && (sbirFailed r || !c.nih.fallback_only)

/-- `nih_failed` (sources.py 58, 65). -/
def nihFailed (c : SourcesCfg) (r : SourcesRun α) : Bool :=
  nihRuns c r && r.nih.isErr

/-- Guard of the RSS block (sources.py 69). -/
def rssRuns (c : SourcesCfg) (r : SourcesRun α) : Bool :=
  c.rss.enabled && (sbirFailed r || !c.rss.fallback_only)

/-- `rss_failed` (sources.py 68, 75). -/
def rssFailed (c : SourcesCfg) (r : SourcesRun α) : Bool :=
  rssRuns c r && r.rss.isErr

/-- Guard of the SAM block (sources.py 78-85): triggered by any earlier
failure, in the disjunct order of the source. -/
def samRuns (c : SourcesCfg) (r : SourcesRun α) : Bool :=
  c.sam.enabled &&
    (sbirFailed r || rssFailed c r || dodFailed c r || nsfFailed c r ||
      nihFailed c r || !c.sam.fallback_only)

/-- The adapter names whose try-block is entered, in execution order. -/
def collectInvoked (c : SourcesCfg) (r : SourcesRun α) : List String :=
  ["sbir"]
    ++ (if dodRuns c r then ["dod_darpa"] else [])
    ++ (if nsfRuns c r then ["nsf_seedfund"] else [])
    ++ (if nihRuns c r then ["nih_guide"] else [])
    ++ (if rssRuns c r then ["grants_rss"] else [])
    ++ (if samRuns c r then ["sam"] else [])

/-- Records contributed by a guarded block. -/
def blockOpps (runs : Bool) (o : Outcome α) : List α :=
  if runs then o.records else []

/-- `opportunities` accumulated by `collect_opportunities`, concatenated in
execution order (sources.py 24, 32, 42, 52, 62, 72, 88). -/
def collectOpps (c : SourcesCfg) (r : SourcesRun α) : List α :=
  r.sbir.records
    ++ blockOpps (dodRuns c r) r.dod
    ++ blockOpps (nsfRuns c r) r.nsf
    ++ blockOpps (nihRuns c r) r.nih
    ++ blockOpps (rssRuns c r) r.rss
    ++ blockOpps (samRuns c r) r.sam

/-- SourceReport entries of a guarded block: one on success, none on failure
or when skipped. -/
def blockReport (runs : Bool) (name : String) (o : Outcome α) :
    List SourceReport :=
  if runs then
    match o with
    | .ok rs => [⟨name, rs.length⟩]
    | .err _ => []
  else []

/-- `reports` of `collect_opportunities`, in execution order. -/
def collectReports (c : SourcesCfg) (r : SourcesRun α) : List SourceReport :=
  blockReport true "sbir" r.sbir
    ++ blockReport (dodRuns c r) "dod_darpa" r.dod
    ++ blockReport (nsfRuns c r) "nsf_seedfund" r.nsf
    ++ blockReport (nihRuns c r) "nih_guide" r.nih
    ++ blockReport (rssRuns c r) "grants_rss" r.rss
    ++ blockReport (samRuns c r) "sam" r.sam

/-- Error entries of a guarded block: the namespaced message when it ran and
raised. -/
def blockErrors (runs : Bool) (label : String) (o : Outcome α) : List String :=
  if runs then
    match o with
    | .ok _ => []
    | .err e => [label ++ ": " ++ e]
  else []

/-- `errors` of `collect_opportunities`, in execution order, each namespaced
with its human-readable adapter label (sources.py 36, 46, 56, 66, 76, 91). -/
def collectErrors (c : SourcesCfg) (r : SourcesRun α) : List String :=
  blockErrors true "SBIR.gov" r.sbir
    ++ blockErrors (dodRuns c r) "DARPA topics" r.dod
    ++ blockErrors (nsfRuns c r) "NSF solicitations" r.nsf
    ++ blockErrors (nihRuns c r) "NIH Guide" r.nih
    ++ blockErrors (rssRuns c r) "Grants.gov RSS" r.rss
    ++ blockErrors (samRuns c r) "SAM.gov" r.sam

/-- `collect_opportunities` (sources.py 21-96): the final guard raises
exactly when no records were collected, at least one error was recorded, and
`fail_on_no_results` is set (line 93-94). -/
def collectResult (c : SourcesCfg) (r : SourcesRun α) :
    Except String (List α × List SourceReport × List String) :=
  if (collectOpps c r).isEmpty && !(collectErrors c r).isEmpty &&
      c.fail_on_no_results then
    .error ("All sources failed: " ++
      String.intercalate "; " (collectErrors c r))
  else
    .ok (collectOpps c r, collectReports c r, collectErrors c r)

/-! ## Dedup filter and run persistence (cli.py) -/

/-- `_filter_new` (cli.py 99-100): keep matches whose opportunity id is not
in the seen-id set (modelled as a list with membership semantics). -/
def filterNew (matchList : List MatchRec) (seenIds : List String) :
    List MatchRec :=
  matchList.filter (fun m => !(seenIds.contains m.opportunity.id))

/-- `_remember` (cli.py 103-105): add each match's id to the in-memory set.
The set is modelled as a duplicate-free list; adding a present id is a
no-op. -/
def remember (seenIds : List String) (matchList : List MatchRec) :
    List String :=
  matchList.foldl
    (fun s m =>
      if s.contains m.opportunity.id then s else s ++ [m.opportunity.id])
    seenIds

/-- The state/notification slice of `run` (cli.py 70-96): load the seen-id
set from disk, filter the matches, and only when new matches exist call
`notify` (which may raise), then `_remember`, then `save_state`.  The notify
outcome is an oracle boolean; the function returns the run outcome (an
exception propagates) together with the on-disk state after the run. -/
def runDedup (matchList : List MatchRec) (disk : List String)
    (notifyRaises : Bool) : Except Unit (List String) × List String :=
  let state := disk
  let newMatches := filterNew matchList state
  if !newMatches.isEmpty then
    if notifyRaises then (.error (), disk)
    else
      let state2 := remember state newMatches
      (.ok state2, state2)
  else (.ok state, disk)

/-! ## Persisted dedup state (state.py) -/

/-- A parsed JSON value, the possible results of `json.loads`. -/
inductive JValue
  | null
  | bool (b : Bool)
  | num (n : Int)
  | str (s : String)
  | arr (xs : List JValue)
  | obj (kvs : List (String × JValue))

/-- Python hashability of a JSON-decoded value: lists and dicts are
unhashable, everything else is hashable. -/
def JValue.hashable : JValue → Bool
  | .arr _ => false
  | .obj _ => false
  | _ => true

/-- `dict.get(key, default)` on a JSON-decoded object; `json.loads` keeps the
last value of a duplicated key. -/
def objGet (kvs : List (String × JValue)) (key : String) (default : JValue) :
    JValue :=
  match kvs.reverse.find? (fun kv => kv.1 = key) with
  | some kv => kv.2
  | none => default

/-- Python `set(value)`: raises `TypeError` unless the value is iterable with
hashable elements.  Iterating a list yields its elements, a string its
one-character substrings, a dict its keys.  The resulting set is represented
by the element list (membership semantics). -/
def pySet : JValue → Except Unit (List JValue)
  | .arr xs => if xs.all JValue.hashable then .ok xs else .error ()
  | .str s => .ok (s.data.map (fun ch => JValue.str (String.mk [ch])))
  | .obj kvs => .ok (kvs.map (fun kv => JValue.str kv.1))
  | _ => .error ()

/-- The on-disk content seen by `load_state`: `none` when the file does not
exist, `some none` when its text does not parse as JSON, `some (some v)` when
it parses to `v`. -/
def DiskContent : Type := Option (Option JValue)

/-- `load_state` (state.py 13-21): missing file and `JSONDecodeError` yield
an empty state, a non-dict payload yields an empty set, and a dict payload
feeds `set(data.get("seen_ids", []))` - which can itself raise `TypeError`
(modelled by the `Except`). -/
def loadState (d : DiskContent) : Except Unit (List JValue) :=
  match d with
  | none => .ok []
  | some none => .ok []
  | some (some data) =>
    match data with
    | .obj kvs => pySet (objGet kvs "seen_ids" (.arr []))
    | _ => .ok []

/-- The shapes of on-disk content for which `load_state` returns without
raising: anything except a dict whose `seen_ids` value is non-iterable or an
iterable containing an unhashable element. -/
def loadSafe (d : DiskContent) : Bool :=
  match d with
  | some (some (.obj kvs)) =>
    match objGet kvs "seen_ids" (.arr []) with
    | .arr xs => xs.all JValue.hashable
    | .str _ => true
    | .obj _ => true
    | _ => false
  | _ => true

/-! ## Paginated fetch retry loop (sbir.py `_fetch_page`) -/

/-- What one HTTP attempt of `_fetch_page` does: succeed, raise
`HTTPStatusError` with a status code, or raise `RequestError`. -/
inductive Attempt
  | success
  | statusErr (code : Nat)
  | reqErr
deriving DecidableEq

/-- The exception `_fetch_page` can propagate. -/
inductive FetchErr
  | http (code : Nat)
  | request
  | runtime
deriving DecidableEq

/-- Observable trace of one `_fetch_page` call: how many attempts were made,
the sleep durations between them (seconds, exact rationals), and the result
(`ok` or the propagated exception). -/
structure FetchTrace where
  attempts : Nat
  delays : List ℚ
  result : Except FetchErr Unit

/-- The retryable status set of sbir.py line 79. -/
def retryableStatus (code : Nat) : Bool :=
  code = 429 || code = 500 || code = 502 || code = 503 || code = 504

/-- The retry loop of `_fetch_page` (sbir.py 68-96).  `attempt` is the loop
index, `fuel` the remaining iterations (`retries + 1 - attempt`), `lastError`
the `last_error` variable.  When the fuel runs out the trailing
`raise last_error` / `raise RuntimeError(...)` of lines 94-96 fires. -/
def fetchLoop (outcomes : Nat → Attempt) (retries : Nat) (backoff : ℚ) :
    Nat → Nat → Option FetchErr → FetchTrace
  | _, 0, lastError => ⟨0, [], .error (lastError.getD .runtime)⟩
  | attempt, fuel + 1, _ =>
    match outcomes attempt with
    | .success => ⟨1, [], .ok ()⟩
    | .statusErr code =>
      if retryableStatus code && decide (attempt < retries) then
        let delay0 := backoff * 2 ^ attempt
        let delay := if code = 429 then max delay0 10 else delay0
        let t := fetchLoop outcomes retries backoff (attempt + 1) fuel
          (some (.http code))
        ⟨t.attempts + 1, delay :: t.delays, t.result⟩
      else ⟨1, [], .error (.http code)⟩
    | .reqErr =>
      if attempt < retries then
        let t := fetchLoop outcomes retries backoff (attempt + 1) fuel
          (some .request)
        ⟨t.attempts + 1, backoff * 2 ^ attempt :: t.delays, t.result⟩
      else ⟨1, [], .error .request⟩

/-- `_fetch_page` (sbir.py 62-96): clamp the configured retry count and
backoff (lines 64-65), then run the attempt loop. -/
def fetchPage (retryMax : Int) (backoffCfg : ℚ) (outcomes : Nat → Attempt) :
    FetchTrace :=
  let retries := (max 0 retryMax).toNat
  let backoff := max (1 / 10) backoffCfg
  fetchLoop outcomes retries backoff 0 (retries + 1) none

/-- The sleep duration the code computes before retry number `i` (0-based),
given the outcome of attempt `i` (sbir.py 81-84, 90): `backoff * 2 ** i`,
floored at 10 seconds for an HTTP 429 response. -/
def delayFormula (backoff : ℚ) (a : Attempt) (i : Nat) : ℚ :=
  match a with
  | .statusErr code =>
    if code = 429 then max (backoff * 2 ^ i) 10 else backoff * 2 ^ i
  | _ => backoff * 2 ^ i

/-- The exception corresponding to a failing attempt outcome. -/
def attemptErr : Attempt → FetchErr
  | .statusErr code => .http code
  | .reqErr => .request
  | .success => .runtime

/-! ## SBIR opportunity ids (sbir.py) -/

/-- `_build_id` (sbir.py 207-213): join the truthy parts with `"::"`, or
`"unknown"` when none remain. -/
def buildId (solicitationNumber topicNumber subtopicTitle : Option String) :
    String :=
  let parts := ([solicitationNumber, topicNumber, subtopicTitle].filterMap
    id).filter (fun p => p ≠ "")
  if parts.isEmpty then "unknown" else String.intercalate "::" parts

/-- A subtopic dict as consumed by `iter_opportunities`, restricted to the
fields it reads (post-`_to_str` values). -/
structure SubRec where
  subtopic_title : Option String
  subtopic_description : Option String
  sbir_subtopic_link : Option String
deriving DecidableEq

/-- A topic dict as consumed by `iter_opportunities`. -/
structure TopicRec where
  topic_title : Option String
  topic_number : Option String
  topic_description : Option String
  sbir_topic_link : Option String
  subtopics : List SubRec
deriving DecidableEq

/-- A solicitation dict as consumed by `iter_opportunities` and
`_base_fields`. -/
structure SolRec where
  solicitation_title : Option String
  solicitation_number : Option String
  agency : Option String
  branch : Option String
  open_date : Option String
  close_date : Option String
  sbir_solicitation_link : Option String
  solicitation_agency_url : Option String
  solicitation_topics : List TopicRec
deriving DecidableEq

/-- `_best_url` (sbir.py 187-204) restricted to the modelled fields: first
truthy link among subtopic, topic, then solicitation keys. -/
def bestUrl (sol : SolRec) (topic : Option TopicRec) (sub : Option SubRec) :
    Option String :=
  let keep := fun v : Option String => match v with
    | some s => if s = "" then none else some s
    | none => none
  (keep (sub.bind SubRec.sbir_subtopic_link)).orElse fun _ =>
  (keep (topic.bind TopicRec.sbir_topic_link)).orElse fun _ =>
  (keep sol.sbir_solicitation_link).orElse fun _ =>
  keep sol.solicitation_agency_url

/-- `_opportunity_from_topic` (sbir.py 148-173). -/
def opportunityFromTopic (sol : SolRec) (topic : TopicRec)
    (sub : Option SubRec) : Opportunity :=
  { id := buildId sol.solicitation_number topic.topic_number
      (sub.bind SubRec.subtopic_title)
    source := some "sbir"
    solicitation_title := sol.solicitation_title.getD ""
    solicitation_number := sol.solicitation_number
    agency := sol.agency
    branch := sol.branch
    open_date := sol.open_date
    close_date := sol.close_date
    topic_title := topic.topic_title
    topic_number := topic.topic_number
    topic_description := topic.topic_description
    subtopic_title := sub.bind SubRec.subtopic_title
    subtopic_description := sub.bind SubRec.subtopic_description
    url := bestUrl sol (some topic) sub }

/-- `iter_opportunities` (sbir.py 110-145): one opportunity per
topic/subtopic pair, one per topic without subtopics, one for the bare
solicitation when it has no topics. -/
def iterOpportunities (sol : SolRec) : List Opportunity :=
  match sol.solicitation_topics with
  | [] =>
    [{ id := buildId sol.solicitation_number none none
       source := some "sbir"
       solicitation_title := sol.solicitation_title.getD ""
       solicitation_number := sol.solicitation_number
       agency := sol.agency
       branch := sol.branch
       open_date := sol.open_date
       close_date := sol.close_date
       topic_title := none
       topic_number := none
       topic_description := none
       subtopic_title := none
       subtopic_description := none
       url := bestUrl sol none none }]
  | topics =>
    topics.flatMap fun topic =>
      match topic.subtopics with
      | [] => [opportunityFromTopic sol topic none]
      | subs => subs.map fun sub => opportunityFromTopic sol topic (some sub)

/-- The identifying key fields of a solicitation record: exactly the inputs
`_build_id` consumes, in the structure `iter_opportunities` traverses. -/
def idKeys (sol : SolRec) :
    Option String × List (Option String × List (Option String)) :=
  (sol.solicitation_number,
    sol.solicitation_topics.map fun t =>
      (t.topic_number, t.subtopics.map SubRec.subtopic_title))

/-- The id list determined by the key fields alone. -/
def idsFromKeys
    (k : Option String × List (Option String × List (Option String))) :
    List String :=
  match k.2 with
  | [] => [buildId k.1 none none]
  | topics =>
    topics.flatMap fun t =>
      match t.2 with
      | [] => [buildId k.1 t.1 none]
      | subs => subs.map fun s => buildId k.1 t.1 s

/-! ## Theorems -/

/-- C1 (code bug): the spec says a short alphanumeric keyword is compiled as
a word-boundary match, so keyword "AI" should match "AI research" and not
"pAId".  The source writes the pattern as `rf"\\b{escaped}\\b"`, a raw string
in which `\\b` is a literal backslash plus `b`, not the `\b` word-boundary
assertion; the compiled pattern therefore only matches texts containing those
literal characters, and "AI" fails to match "AI research".  The word-boundary
semantics the spec describes (`specWordMatch`) does match it.  Long keywords
still match as case-insensitive substrings as claimed. -/
theorem compileKeyword_short_not_word_boundary :
    patternMatches "AI" "AI research" = false ∧
    specWordMatch "AI" "AI research" = true ∧
    specWordMatch "AI" "pAId" = false ∧
    patternMatches "AI" "x \\bai\\b y" = true ∧
    patternMatches "artificial intelligence" "An Artificial Intelligence grant" = true := by
  decide

/-- C6: `_filter_new` returns exactly the order-preserving sublist of matches
whose opportunity id is absent from the seen-id set; if every id is seen the
result is empty, and if none is seen the result is the input unchanged. -/
theorem filterNew_spec (matchList : List MatchRec) (seenIds : List String) :
    List.Sublist (filterNew matchList seenIds) matchList ∧
    (∀ m : MatchRec, m ∈ filterNew matchList seenIds ↔
      m ∈ matchList ∧ seenIds.contains m.opportunity.id = false) ∧
    ((∀ m ∈ matchList, seenIds.contains m.opportunity.id = true) →
      filterNew matchList seenIds = []) ∧
    ((∀ m ∈ matchList, seenIds.contains m.opportunity.id = false) →
      filterNew matchList seenIds = matchList) := by
  refine ⟨List.filter_sublist _, ?_, ?_, ?_⟩
  · intro m
    simp [filterNew, List.mem_filter]
  · intro h
    simp only [filterNew, List.filter_eq_nil_iff]
    intro m hm
    simpa using h m hm
  · intro h
    simp only [filterNew, List.filter_eq_self]
    intro m hm
    simpa using h m hm

/-- An opportunity used in concrete witness instances. -/
def sampleOpp : Opportunity :=
  ⟨"sbir::25-A::T1", some "sbir", "AI robotics research", some "25-A",
    some "DOD", none, none, none, none, some "T1", none, none, none, none⟩

/-- A match record used in concrete witness instances. -/
def sampleMatch : MatchRec := ⟨sampleOpp, 1, ["ai"], "ai robotics research"⟩

/-- Witness for C6 at concrete inputs: with the single match's id seen the
filter is empty, with no id seen the input passes through unchanged. -/
theorem filterNew_spec_witness :
    filterNew [sampleMatch] ["sbir::25-A::T1"] = [] ∧
    filterNew [sampleMatch] ["other"] = [sampleMatch] :=
  ⟨(filterNew_spec [sampleMatch] ["sbir::25-A::T1"]).2.2.1 (by decide),
    (filterNew_spec [sampleMatch] ["other"]).2.2.2 (by decide)⟩

/-- C5: in `run`, `notify` is called before `_remember` and `save_state`, so
when new matches exist and notification raises, the run propagates the error
and the on-disk seen-id set is unchanged; and when no new match exists,
nothing is persisted at all. -/
theorem runDedup_no_persist_on_failure (matchList : List MatchRec)
    (disk : List String) :
    (filterNew matchList disk ≠ [] →
      (runDedup matchList disk true).1 = .error () ∧
      (runDedup matchList disk true).2 = disk) ∧
    (filterNew matchList disk = [] →
      ∀ notifyRaises, runDedup matchList disk notifyRaises = (.ok disk, disk)) := by
  constructor
  · intro h
    have h' : (filterNew matchList disk).isEmpty = false := by
      cases hx : filterNew matchList disk with
      | nil => exact absurd hx h
      | cons a l => simp [List.isEmpty]
    simp [runDedup, h']
  · intro h notifyRaises
    simp [runDedup, h]

/-- Witness for C5: a failing notification run leaves the empty disk state
empty, and a run with no new matches persists nothing. -/
theorem runDedup_no_persist_on_failure_witness :
    (runDedup [sampleMatch] [] true).2 = [] ∧
    runDedup [sampleMatch] ["sbir::25-A::T1"] false =
      (.ok ["sbir::25-A::T1"], ["sbir::25-A::T1"]) :=
  ⟨((runDedup_no_persist_on_failure [sampleMatch] []).1 (by decide)).2,
    (runDedup_no_persist_on_failure [sampleMatch] ["sbir::25-A::T1"]).2
      (by decide) false⟩

/-- Counterexample for C7: `load_state` is not total.  A file whose JSON is
the object `{"seen_ids": 5}` reaches `set(data.get("seen_ids", []))` with a
non-iterable value and raises `TypeError`. -/
theorem loadState_raises_on_numeric_seen_ids :
    (loadState (some (some (.obj [("seen_ids", .num 5)])))).isOk = false := by
  rfl

/-- C7 (amended): `load_state` returns a state for a missing file, undecodable
text, any non-object JSON payload, and any object whose `seen_ids` value is a
string, an object, or an array of hashable elements - degrading to the empty
seen-id set for the unreadable and non-object shapes; it raises exactly when
the object's `seen_ids` value is non-iterable (null, boolean, number) or an
array containing an unhashable element. -/
theorem loadState_amended (d : DiskContent) :
    (loadState d).isOk = loadSafe d ∧
    ((∀ kvs, d ≠ some (some (.obj kvs))) → loadState d = .ok []) := by
  constructor
  · match d with
    | none => rfl
    | some none => rfl
    | some (some v) =>
      cases v with
      | obj kvs =>
        show (pySet (objGet kvs "seen_ids" (.arr []))).isOk = _
        cases hg : objGet kvs "seen_ids" (.arr []) with
        | arr xs =>
          cases hx : xs.all JValue.hashable <;> simp [pySet, loadSafe, hg, hx] <;> rfl
        | _ => simp [pySet, loadSafe, hg, Except.isOk, Except.toBool]
      | _ => rfl
  · intro h
    match d with
    | none => rfl
    | some none => rfl
    | some (some v) =>
      cases v with
      | obj kvs => exact absurd rfl (h kvs)
      | _ => rfl

/-- Witness for C7 (amended): a missing state file loads as the empty state. -/
theorem loadState_amended_witness : loadState none = .ok [] :=
  (loadState_amended none).2 (fun _ h => Option.noConfusion h)

/-- Configuration with every secondary enabled and not fallback-only, and
`fail_on_no_results` set; used to refute C4. -/
def allOnCfg : SourcesCfg :=
  ⟨⟨true, false⟩, ⟨true, false⟩, ⟨true, false⟩, ⟨true, false⟩, ⟨true, false⟩, true⟩

/-- A run in which every adapter succeeds with zero records. -/
def allEmptyRun : SourcesRun Nat := ⟨.ok [], .ok [], .ok [], .ok [], .ok [], .ok []⟩

/-- Counterexample for C4: with `fail_on_no_results` set, a run where every
adapter succeeds but returns zero total records does NOT fail fatally - the
raise at sources.py 93-94 also requires a non-empty error list, so
`collect_opportunities` returns normally with empty results. -/
theorem collect_all_empty_success_does_not_raise :
    allOnCfg.fail_on_no_results = true ∧
    collectErrors allOnCfg allEmptyRun = [] ∧
    collectOpps allOnCfg allEmptyRun = ([] : List Nat) ∧
    (collectResult allOnCfg allEmptyRun).isOk = true := by
  decide

/-- C4 (amended): `collect_opportunities` never raises for an individual
adapter failure - each is caught and recorded as a namespaced error string
and the function otherwise returns its accumulated triple; it raises fatally
exactly when `fail_on_no_results` is configured, zero records were collected,
and at least one adapter error was recorded (so an all-success zero-record
run returns normally). -/
theorem collectResult_fatal_iff {α : Type} (c : SourcesCfg) (r : SourcesRun α) :
    ((collectResult c r).isOk = false ↔
      (c.fail_on_no_results = true ∧ collectOpps c r = [] ∧
        collectErrors c r ≠ [])) ∧
    (collectResult c r =
        .ok (collectOpps c r, collectReports c r, collectErrors c r) ∨
      collectResult c r =
        .error ("All sources failed: " ++
          String.intercalate "; " (collectErrors c r))) := by
  constructor
  · unfold collectResult
    split
    · rename_i hcond
      simp only [Bool.and_eq_true, Bool.not_eq_true'] at hcond
      obtain ⟨⟨h1, h2⟩, h3⟩ := hcond
      simp only [List.isEmpty_iff] at h1
      simp only [List.isEmpty_eq_false] at h2
      simp [Except.isOk, Except.toBool, h1, h2, h3]
    · rename_i hcond
      simp only [Bool.and_eq_true, Bool.not_eq_true', not_and] at hcond
      constructor
      · intro h; simp [Except.isOk, Except.toBool] at h
      · intro ⟨h3, h1, h2⟩
        exact absurd h3
          (hcond ⟨by simp [List.isEmpty_iff, h1], by simp [List.isEmpty_eq_false, h2]⟩)
  · unfold collectResult
    split
    · right; rfl
    · left; rfl

/-- Configuration for the C2 counterexample: DOD enabled eagerly, NSF enabled
as fallback-only, everything later disabled. -/
def cascadeCfg : SourcesCfg :=
  ⟨⟨true, false⟩, ⟨true, true⟩, ⟨false, true⟩, ⟨false, true⟩, ⟨false, true⟩, false⟩

/-- A run where the primary succeeds and DOD (the first secondary) fails. -/
def cascadeRun : SourcesRun Nat :=
  ⟨.ok [1], .err "boom", .ok [2], .ok [3], .ok [4], .ok [5]⟩

/-- Counterexample for C2: NSF is enabled and fallback-only, and the earlier
secondary DOD executed and failed while the primary succeeded - so by the
claim NSF must execute - yet its block is never entered: only the DOD guard
of SAM cascades over secondary failures; DOD/NSF/NIH/RSS guards test only
`sbir_failed`. -/
theorem collect_cascade_counterexample :
    cascadeCfg.nsf.enabled = true ∧
    cascadeCfg.nsf.fallback_only = true ∧
    sbirFailed cascadeRun = false ∧
    dodRuns cascadeCfg cascadeRun = true ∧
    dodFailed cascadeCfg cascadeRun = true ∧
    collectInvoked cascadeCfg cascadeRun = ["sbir", "dod_darpa"] := by
  decide

/-- C2 (amended): a DOD/NSF/NIH/RSS secondary executes exactly when it is
enabled and (not fallback-only, or the PRIMARY failed) - the failure of an
earlier secondary does not trigger them; only the last-resort SAM adapter
cascades: it executes exactly when enabled and (not fallback-only, or any of
the primary, DOD, NSF, NIH, RSS failed). -/
theorem collectInvoked_iff {α : Type} (c : SourcesCfg) (r : SourcesRun α) :
    ("dod_darpa" ∈ collectInvoked c r ↔
      (c.dod.enabled = true ∧
        (c.dod.fallback_only = false ∨ sbirFailed r = true))) ∧
    ("nsf_seedfund" ∈ collectInvoked c r ↔
      (c.nsf.enabled = true ∧
        (c.nsf.fallback_only = false ∨ sbirFailed r = true))) ∧
    ("nih_guide" ∈ collectInvoked c r ↔
      (c.nih.enabled = true ∧
        (c.nih.fallback_only = false ∨ sbirFailed r = true))) ∧
    ("grants_rss" ∈ collectInvoked c r ↔
      (c.rss.enabled = true ∧
        (c.rss.fallback_only = false ∨ sbirFailed r = true))) ∧
    ("sam" ∈ collectInvoked c r ↔
      (c.sam.enabled = true ∧
        (c.sam.fallback_only = false ∨ sbirFailed r = true ∨
          dodFailed c r = true ∨ nsfFailed c r = true ∨
          nihFailed c r = true ∨ rssFailed c r = true))) := by
  refine ⟨?_, ?_, ?_, ?_, ?_⟩ <;>
    simp only [collectInvoked, List.mem_append, List.mem_singleton,
      List.mem_ite_nil_right] <;>
    simp only [dodRuns, nsfRuns, nihRuns, rssRuns, samRuns, Bool.and_eq_true,
      Bool.or_eq_true, Bool.not_eq_true'] <;>
    simp <;>
    tauto

/-- The evaluation record a loop step produces. -/
def StepOut.evalRec : StepOut → EvalRec
  | .skip e => e
  | .accept _ e => e

/-- Every branch of the loop body files its evaluation under the opportunity
being processed. -/
theorem evalOne_evalRec_opportunity (cfg : MatchCfg) (o : Opportunity) :
    ((evalOne cfg o).evalRec).opportunity = o := by
  simp only [evalOne]
  repeat' split
  all_goals rfl

/-- C10: the matching engine's counting invariant - one evaluation per input
opportunity in input order, and accepted matches plus skips partition the
input count. -/
theorem matchOpportunities_counting (opportunities : List Opportunity)
    (cfg : MatchCfg) :
    (matchOpportunities opportunities cfg).evaluations.map EvalRec.opportunity
        = opportunities ∧
    (matchOpportunities opportunities cfg).evaluations.length
        = opportunities.length ∧
    (matchOpportunities opportunities cfg).matchList.length
        + (matchOpportunities opportunities cfg).skipped
        = opportunities.length := by
  induction opportunities with
  | nil => exact ⟨rfl, rfl, rfl⟩
  | cons o rest ih =>
    obtain ⟨ih1, ih2, ih3⟩ := ih
    have ho : ((evalOne cfg o).evalRec).opportunity = o :=
      evalOne_evalRec_opportunity cfg o
    cases h : evalOne cfg o with
    | skip e =>
      rw [h] at ho
      simp only [StepOut.evalRec] at ho
      refine ⟨?_, ?_, ?_⟩
      · simp [matchOpportunities, h, ho, ih1]
      · simp [matchOpportunities, h, ih2]
      · simp [matchOpportunities, h]
        omega
    | accept m e =>
      rw [h] at ho
      simp only [StepOut.evalRec] at ho
      refine ⟨?_, ?_, ?_⟩
      · simp [matchOpportunities, h, ho, ih1]
      · simp [matchOpportunities, h, ih2]
      · simp [matchOpportunities, h]
        omega

/-- `match_opportunities` on a single record reduces to its loop body. -/
theorem matchOpportunities_singleton (cfg : MatchCfg) (o : Opportunity) :
    matchOpportunities [o] cfg =
      match evalOne cfg o with
      | .skip e => ⟨[], 1, [e]⟩
      | .accept m e => ⟨[m], 0, [e]⟩ := by
  cases h : evalOne cfg o <;> simp [matchOpportunities, h]

/-- The agency filter branch fires regardless of whitelisting. -/
theorem evalOne_agency (cfg : MatchCfg) (o : Opportunity)
    (ha : agencyFiltered cfg o = true) :
    evalOne cfg o = .skip ⟨o, 0, [], some "agency_filtered"⟩ := by
  simp [evalOne, ha]

/-- The empty-text branch fires for non-whitelisted sources. -/
theorem evalOne_no_text (cfg : MatchCfg) (o : Opportunity)
    (ha : agencyFiltered cfg o = false)
    (ht : buildText o cfg.match_fields = "")
    (hw : whitelisted cfg o = false) :
    evalOne cfg o = .skip ⟨o, 0, [], some "no_text"⟩ := by
  simp [evalOne, ha, ht, hw]

/-- The exclusion branch fires on non-empty text regardless of whitelisting. -/
theorem evalOne_excluded (cfg : MatchCfg) (o : Opportunity) (kw : String)
    (ha : agencyFiltered cfg o = false)
    (ht : buildText o cfg.match_fields ≠ "")
    (hex : firstExcluded (buildText o cfg.match_fields)
      (cfg.exclude_keywords.map pyLower) = some kw) :
    evalOne cfg o = .skip ⟨o, 0, [], some ("excluded_keyword:" ++ kw)⟩ := by
  simp [evalOne, ha, ht, hex]

/-- The threshold branch skips a non-whitelisted record scoring below the
minimum. -/
theorem evalOne_low_score (cfg : MatchCfg) (o : Opportunity)
    (ha : agencyFiltered cfg o = false)
    (hw : whitelisted cfg o = false)
    (ht : buildText o cfg.match_fields ≠ "")
    (hnone : firstExcluded (buildText o cfg.match_fields)
      (cfg.exclude_keywords.map pyLower) = none)
    (hs : ((matchedKeywords cfg o).length : Int) < cfg.min_score) :
    evalOne cfg o = .skip ⟨o, (matchedKeywords cfg o).length,
      matchedKeywords cfg o, some ("score<" ++ toString cfg.min_score)⟩ := by
  simp [evalOne, ha, hw, ht, hnone, hs]

/-- A whitelisted record that survives the agency filter and the exclusion
check is accepted no matter its score or whether it has any text. -/
theorem evalOne_accept_whitelisted (cfg : MatchCfg) (o : Opportunity)
    (ha : agencyFiltered cfg o = false)
    (hw : whitelisted cfg o = true)
    (hx : buildText o cfg.match_fields = "" ∨
      firstExcluded (buildText o cfg.match_fields)
        (cfg.exclude_keywords.map pyLower) = none) :
    evalOne cfg o = .accept
      ⟨o, (matchedKeywords cfg o).length, matchedKeywords cfg o,
        buildText o cfg.match_fields⟩
      ⟨o, (matchedKeywords cfg o).length, matchedKeywords cfg o,
        if ((matchedKeywords cfg o).length : Int) ≥ cfg.min_score then none
        else some "source_whitelist"⟩ := by
  have hnone : (if buildText o cfg.match_fields ≠ "" then
      firstExcluded (buildText o cfg.match_fields)
        (cfg.exclude_keywords.map pyLower) else none) = none := by
    rcases hx with h | h
    · simp [h]
    · split
      · exact h
      · rfl
  simp [evalOne, ha, hw, hnone]

/-- C3: source whitelisting overrides exactly the score threshold and the
empty-text rejection, never the agency filter or the exclusion check: a
whitelisted record passing agency and exclusion is accepted even with a
below-minimum score or empty text; a non-whitelisted record with empty text
or below-minimum score is skipped; an agency-filtered record is skipped
regardless of whitelisting; and a record whose non-empty text matches an
exclude keyword is skipped regardless of whitelisting. -/
theorem matchOpportunities_whitelist_scope (cfg : MatchCfg) (o : Opportunity) :
    (agencyFiltered cfg o = false → whitelisted cfg o = true →
      (buildText o cfg.match_fields = "" ∨
        firstExcluded (buildText o cfg.match_fields)
          (cfg.exclude_keywords.map pyLower) = none) →
      (matchOpportunities [o] cfg).matchList =
        [⟨o, (matchedKeywords cfg o).length, matchedKeywords cfg o,
          buildText o cfg.match_fields⟩] ∧
      (matchOpportunities [o] cfg).skipped = 0) ∧
    (whitelisted cfg o = false →
      (buildText o cfg.match_fields = "" ∨
        ((matchedKeywords cfg o).length : Int) < cfg.min_score) →
      (matchOpportunities [o] cfg).matchList = [] ∧
      (matchOpportunities [o] cfg).skipped = 1) ∧
    (agencyFiltered cfg o = true →
      (matchOpportunities [o] cfg).matchList = [] ∧
      (matchOpportunities [o] cfg).skipped = 1 ∧
      (matchOpportunities [o] cfg).evaluations =
        [⟨o, 0, [], some "agency_filtered"⟩]) ∧
    (∀ kw, buildText o cfg.match_fields ≠ "" →
      firstExcluded (buildText o cfg.match_fields)
        (cfg.exclude_keywords.map pyLower) = some kw →
      (matchOpportunities [o] cfg).matchList = [] ∧
      (matchOpportunities [o] cfg).skipped = 1 ∧
      (agencyFiltered cfg o = false →
        (matchOpportunities [o] cfg).evaluations =
          [⟨o, 0, [], some ("excluded_keyword:" ++ kw)⟩])) := by
  rw [matchOpportunities_singleton]
  refine ⟨?_, ?_, ?_, ?_⟩
  · intro ha hw hx
    rw [evalOne_accept_whitelisted cfg o ha hw hx]
    exact ⟨rfl, rfl⟩
  · intro hw hx
    cases ha : agencyFiltered cfg o with
    | true => rw [evalOne_agency cfg o ha]; exact ⟨rfl, rfl⟩
    | false =>
      by_cases ht : buildText o cfg.match_fields = ""
      · rw [evalOne_no_text cfg o ha ht hw]; exact ⟨rfl, rfl⟩
      · have hs : ((matchedKeywords cfg o).length : Int) < cfg.min_score := by
          rcases hx with h | h
          · exact absurd h ht
          · exact h
        cases hex : firstExcluded (buildText o cfg.match_fields)
            (cfg.exclude_keywords.map pyLower) with
        | some kw => rw [evalOne_excluded cfg o kw ha ht hex]; exact ⟨rfl, rfl⟩
        | none => rw [evalOne_low_score cfg o ha hw ht hex hs]; exact ⟨rfl, rfl⟩
  · intro ha
    rw [evalOne_agency cfg o ha]
    exact ⟨rfl, rfl, rfl⟩
  · intro kw ht hex
    cases ha : agencyFiltered cfg o with
    | true =>
      rw [evalOne_agency cfg o ha]
      exact ⟨rfl, rfl, fun h => Bool.noConfusion h⟩
    | false =>
      rw [evalOne_excluded cfg o kw ha ht hex]
      exact ⟨rfl, rfl, fun _ => rfl⟩

/-- A rule set used by the whitelist-scope witness: one keyword, one exclude
keyword, min score 1, a DOD agency allow-list, and the "sam" source
whitelisted. -/
def w3cfg : MatchCfg :=
  ⟨["quantum"], ["nuclear"], 1, ["DOD"], ["SAM"], [.solicitation_title]⟩

/-- A whitelisted record with empty text that passes the agency filter. -/
def w3oWL : Opportunity :=
  ⟨"sam::1", some "sam", "", none, some "DOD", none, none, none, none, none,
    none, none, none, none⟩

/-- A non-whitelisted record whose text matches no keyword. -/
def w3oLow : Opportunity :=
  ⟨"sbir::1", some "sbir", "biology lab", none, some "DOD", none, none, none,
    none, none, none, none, none, none⟩

/-- A whitelisted record failing the agency allow-list. -/
def w3oAgency : Opportunity :=
  ⟨"sam::2", some "sam", "quantum lab", none, some "NASA", none, none, none,
    none, none, none, none, none, none⟩

/-- A whitelisted record whose text matches an exclude keyword. -/
def w3oExcl : Opportunity :=
  ⟨"sam::3", some "sam", "Nuclear quantum lab", none, some "DOD", none, none,
    none, none, none, none, none, none, none⟩

/-- Witness for C3 at concrete inputs: the whitelisted empty-text record is
accepted, the non-whitelisted zero-score record is skipped, the whitelisted
record failing the agency filter is skipped as `agency_filtered`, and the
whitelisted record matching an exclude keyword is skipped. -/
theorem matchOpportunities_whitelist_scope_witness :
    ((matchOpportunities [w3oWL] w3cfg).matchList =
      [⟨w3oWL, (matchedKeywords w3cfg w3oWL).length,
        matchedKeywords w3cfg w3oWL, buildText w3oWL w3cfg.match_fields⟩] ∧
      (matchOpportunities [w3oWL] w3cfg).skipped = 0) ∧
    ((matchOpportunities [w3oLow] w3cfg).matchList = [] ∧
      (matchOpportunities [w3oLow] w3cfg).skipped = 1) ∧
    ((matchOpportunities [w3oAgency] w3cfg).evaluations =
      [⟨w3oAgency, 0, [], some "agency_filtered"⟩]) ∧
    ((matchOpportunities [w3oExcl] w3cfg).matchList = [] ∧
      (matchOpportunities [w3oExcl] w3cfg).skipped = 1) :=
  ⟨(matchOpportunities_whitelist_scope w3cfg w3oWL).1 (by decide) (by decide)
      (Or.inl (by decide)),
    (matchOpportunities_whitelist_scope w3cfg w3oLow).2.1 (by decide)
      (Or.inr (by decide)),
    ((matchOpportunities_whitelist_scope w3cfg w3oAgency).2.2.1 (by decide)).2.2,
    ⟨((matchOpportunities_whitelist_scope w3cfg w3oExcl).2.2.2 "nuclear"
        (by decide) (by decide)).1,
      ((matchOpportunities_whitelist_scope w3cfg w3oExcl).2.2.2 "nuclear"
        (by decide) (by decide)).2.1⟩⟩

/-- A solicitation record with no solicitation number and no topics. -/
def solNoKeyA : SolRec :=
  ⟨some "Alpha program", none, some "DOD", none, none, none, none, none, []⟩

/-- A second, different record also lacking a solicitation number. -/
def solNoKeyB : SolRec :=
  ⟨some "Beta program", none, some "NIH", none, none, none, none, none, []⟩

/-- Counterexample for C9: two distinct opportunities built from different
solicitation records both receive the id "unknown", and the id carries no
"<source>::" namespace at all - so sbir ids are neither globally unique nor
source-namespaced. -/
theorem sbir_id_not_unique_nor_namespaced :
    (iterOpportunities solNoKeyA).map Opportunity.id = ["unknown"] ∧
    (iterOpportunities solNoKeyB).map Opportunity.id = ["unknown"] ∧
    iterOpportunities solNoKeyA ≠ iterOpportunities solNoKeyB ∧
    strContains "unknown" "::" = false := by
  decide

/-- Mapping ids over the per-topic expansion depends only on the
solicitation number, topic numbers and subtopic titles. -/
theorem idsAux (sol : SolRec) (topics : List TopicRec) :
    ((topics.flatMap fun topic =>
      match topic.subtopics with
      | [] => [opportunityFromTopic sol topic none]
      | subs => subs.map fun sub =>
          opportunityFromTopic sol topic (some sub)).map Opportunity.id)
    = (topics.map fun t =>
        (t.topic_number, t.subtopics.map SubRec.subtopic_title)).flatMap
        fun t =>
          match t.2 with
          | [] => [buildId sol.solicitation_number t.1 none]
          | subs => subs.map fun s => buildId sol.solicitation_number t.1 s := by
  induction topics with
  | nil => rfl
  | cons t ts ih =>
    simp only [List.flatMap_cons, List.map_cons, List.map_append, ih]
    congr 1
    cases hs : t.subtopics with
    | nil => rfl
    | cons s ss =>
      simp [opportunityFromTopic, List.map_map, Function.comp]

/-- C9 (amended): sbir opportunity ids are deterministically derived from the
immutable key fields alone - the id list of a record factors through
`idKeys` (solicitation number, topic numbers, subtopic titles), so
re-fetching the same announcement yields the same ids; but ids are plain
"::"-joins of those key parts (defaulting to "unknown"), not
source-namespaced, and distinct opportunities can share an id. -/
theorem iterOpportunities_ids_deterministic (sol : SolRec) :
    (iterOpportunities sol).map Opportunity.id = idsFromKeys (idKeys sol) := by
  unfold iterOpportunities idsFromKeys idKeys
  cases htop : sol.solicitation_topics with
  | nil => simp [htop]
  | cons t ts =>
    simp only [htop, List.map_cons]
    have h := idsAux sol (t :: ts)
    simpa using h

/-- When every attempt fails, the retry loop starting at `attempt` with
exactly the remaining fuel makes between 1 and `fuel` attempts, re-raises the
error of its last attempt, and sleeps `delayFormula` seconds between
consecutive attempts. -/
theorem fetchLoop_all_fail (outcomes : Nat → Attempt) (retries : Nat)
    (backoff : ℚ) (hfail : ∀ i, outcomes i ≠ .success) :
    ∀ fuel attempt lastErr, 1 ≤ fuel → attempt + fuel = retries + 1 →
      ∃ n ds, fetchLoop outcomes retries backoff attempt fuel lastErr =
          ⟨n, ds, .error (attemptErr (outcomes (attempt + n - 1)))⟩ ∧
        1 ≤ n ∧ n ≤ fuel ∧ ds.length = n - 1 ∧
        ∀ j, (hj : j < ds.length) → ds.get ⟨j, hj⟩ =
          delayFormula backoff (outcomes (attempt + j)) (attempt + j) := by
  intro fuel
  induction fuel with
  | zero =>
    intro attempt lastErr h1 _
    exact absurd h1 (by omega)
  | succ f ih =>
    intro attempt lastErr _ hsum
    cases ho : outcomes attempt with
    | success => exact absurd ho (hfail attempt)
    | statusErr code =>
      by_cases hc : (retryableStatus code && decide (attempt < retries)) = true
      · have hlt : attempt < retries :=
          of_decide_eq_true ((Bool.and_eq_true _ _).mp hc).2
        have hf1 : 1 ≤ f := by omega
        have hsum' : (attempt + 1) + f = retries + 1 := by omega
        obtain ⟨n, ds, heq, hn1, hnf, hlen, hform⟩ :=
          ih (attempt + 1) (some (.http code)) hf1 hsum'
        refine ⟨n + 1,
          (if code = 429 then max (backoff * 2 ^ attempt) 10
            else backoff * 2 ^ attempt) :: ds, ?_, by omega, by omega, ?_, ?_⟩
        · show fetchLoop outcomes retries backoff attempt (f + 1) lastErr = _
          rw [fetchLoop, ho]
          simp only [hc, if_true, heq]
          have hidx : attempt + 1 + n - 1 = attempt + (n + 1) - 1 := by omega
          rw [hidx]
        · simp only [List.length_cons]
          omega
        · intro j hj
          cases j with
          | zero =>
            simp [delayFormula, ho]
          | succ j' =>
            have hj' : j' < ds.length := by
              simpa using Nat.lt_of_succ_lt_succ (by simpa using hj)
            have := hform j' hj'
            simp only [List.get_cons_succ]
            rw [show attempt + (j' + 1) = (attempt + 1) + j' from by omega]
            exact this
      · refine ⟨1, [], ?_, le_refl 1, by omega, rfl, fun j hj => absurd hj (by simp)⟩
        show fetchLoop outcomes retries backoff attempt (f + 1) lastErr = _
        rw [fetchLoop, ho]
        simp only [hc, if_false, Bool.false_eq_true]
        have hidx : attempt + 1 - 1 = attempt := by omega
        rw [hidx, ho]
        rfl
    | reqErr =>
      by_cases hlt : attempt < retries
      · have hf1 : 1 ≤ f := by omega
        have hsum' : (attempt + 1) + f = retries + 1 := by omega
        obtain ⟨n, ds, heq, hn1, hnf, hlen, hform⟩ :=
          ih (attempt + 1) (some .request) hf1 hsum'
        refine ⟨n + 1, backoff * 2 ^ attempt :: ds, ?_, by omega, by omega,
          ?_, ?_⟩
        · show fetchLoop outcomes retries backoff attempt (f + 1) lastErr = _
          rw [fetchLoop, ho]
          simp only [hlt, if_true, heq]
          have hidx : attempt + 1 + n - 1 = attempt + (n + 1) - 1 := by omega
          rw [hidx]
        · simp only [List.length_cons]
          omega
        · intro j hj
          cases j with
          | zero =>
            simp [delayFormula, ho]
          | succ j' =>
            have hj' : j' < ds.length := by
              simpa using Nat.lt_of_succ_lt_succ (by simpa using hj)
            have := hform j' hj'
            simp only [List.get_cons_succ]
            rw [show attempt + (j' + 1) = (attempt + 1) + j' from by omega]
            exact this
      · refine ⟨1, [], ?_, le_refl 1, by omega, rfl, fun j hj => absurd hj (by simp)⟩
        show fetchLoop outcomes retries backoff attempt (f + 1) lastErr = _
        rw [fetchLoop, ho]
        simp only [hlt, if_false]
        have hidx : attempt + 1 - 1 = attempt := by omega
        rw [hidx, ho]
        rfl

/-- C8: a page fetch whose attempts all fail makes at least one and at most
`retry_max + 1` total attempts, then raises the error of its last attempt;
each retry of a retryable failure sleeps `backoff * 2 ** attempt` seconds,
with a 10-second minimum floor applied for HTTP 429 rate-limit responses
(stated for a configured non-negative `retry_max` and a backoff at or above
the code's 0.1-second clamp). -/
theorem fetchPage_retry_bounded (retryMax : Int) (backoffCfg : ℚ)
    (outcomes : Nat → Attempt)
    (hfail : ∀ i, outcomes i ≠ .success)
    (hmax : 0 ≤ retryMax) (hb : 1 / 10 ≤ backoffCfg) :
    ∃ n ds, fetchPage retryMax backoffCfg outcomes =
        ⟨n, ds, .error (attemptErr (outcomes (n - 1)))⟩ ∧
      1 ≤ n ∧ (n : Int) ≤ retryMax + 1 ∧ ds.length = n - 1 ∧
      ∀ j, (hj : j < ds.length) → ds.get ⟨j, hj⟩ =
        delayFormula backoffCfg (outcomes j) j := by
  have hback : max (1 / 10 : ℚ) backoffCfg = backoffCfg := max_eq_right hb
  have hretr : ((max 0 retryMax).toNat : Int) = retryMax := by
    rw [max_eq_right hmax, Int.toNat_of_nonneg hmax]
  obtain ⟨n, ds, heq, hn1, hnf, hlen, hform⟩ :=
    fetchLoop_all_fail outcomes (max 0 retryMax).toNat backoffCfg hfail
      ((max 0 retryMax).toNat + 1) 0 none (by omega) (by omega)
  refine ⟨n, ds, ?_, hn1, by omega, hlen, ?_⟩
  · show fetchPage retryMax backoffCfg outcomes = _
    unfold fetchPage
    simp only [hback]
    rw [heq]
    simp
  · intro j hj
    have := hform j hj
    simpa using this

/-- Witness for C8: two attempts at `retry_max = 1` with persistent HTTP 429
responses, ending in the 429 error after a single 10-second floored sleep. -/
theorem fetchPage_retry_bounded_witness :
    ∃ n ds, fetchPage 1 2 (fun _ => Attempt.statusErr 429) =
        ⟨n, ds, .error (attemptErr ((fun _ => Attempt.statusErr 429) (n - 1)))⟩ ∧
      1 ≤ n ∧ (n : Int) ≤ 1 + 1 ∧ ds.length = n - 1 ∧
      ∀ j, (hj : j < ds.length) → ds.get ⟨j, hj⟩ =
        delayFormula 2 ((fun _ => Attempt.statusErr 429) j) j :=
  fetchPage_retry_bounded 1 2 (fun _ => Attempt.statusErr 429)
    (fun _ h => nomatch h) (by norm_num) (by norm_num)
